import Mathlib

/-!
Verification of the CSV-to-SQLite loader and GPT SQL assistant (`src/main.py`).

The development shallowly embeds the program: the SQLite store becomes an
ordered association list of named tables, the pandas dataframe becomes a
header plus a list of rows of classified cell tokens, interactive input
becomes explicit lists of strings, exceptions become `Except` values, and
the append-only error log `error_log.txt` becomes a `List String` threaded
through the functions.  Function names follow the Python source.
-/

/-- Classification of one CSV cell token as the pandas reader sees it:
a missing entry (empty field / NA marker), an integer literal, a floating
point literal, a boolean literal (`True` / `False`), or any other string. -/
inductive Cell
  | missing
  | intTok (n : Int)
  | floatTok (s : String)
  | boolTok (b : Bool)
  | strTok (s : String)
deriving DecidableEq, Repr

def Cell.isMissing : Cell → Bool
  | .missing => true
  | _ => false

def Cell.isIntTok : Cell → Bool
  | .intTok _ => true
  | _ => false

/-- True for cells that the numeric parser accepts: integer and float
literals, and missing entries (which become NaN, a float). -/
def Cell.isNumericOrMissing : Cell → Bool
  | .missing => true
  | .intTok _ => true
  | .floatTok _ => true
  | _ => false

def Cell.isBoolTok : Cell → Bool
  | .boolTok _ => true
  | _ => false

/-- Column dtypes relevant to `infer_sql_type`: the source passes
`df[col].dtype` of a dataframe produced by `pd.read_csv`. -/
inductive Dtype
  | int64
  | float64
  | boolean
  | datetime64
  | pyobject
deriving DecidableEq, Repr

/-- Models the external pandas collaborator: the dtype `pd.read_csv`
assigns to a column of classified cell tokens.  A column with no rows gets
dtype object; an all-integer column with no missing entries gets int64; a
column of numeric tokens that is not all-integer (in particular a column
that is entirely missing, which becomes all NaN) gets float64; an
all-boolean column gets bool; anything else (mixed values, booleans with
missing entries, date strings — `read_csv` is called without date parsing)
gets object. -/
def pandasDtype (cells : List Cell) : Dtype :=
  if cells.isEmpty then Dtype.pyobject
  else if cells.all Cell.isIntTok then Dtype.int64
  else if cells.all Cell.isNumericOrMissing then Dtype.float64
  else if cells.all Cell.isBoolTok then Dtype.boolean
  else Dtype.pyobject

/-- Models `pd.api.types.is_integer_dtype`. -/
def is_integer_dtype : Dtype → Bool
  | .int64 => true
  | _ => false

/-- Models `pd.api.types.is_float_dtype`. -/
def is_float_dtype : Dtype → Bool
  | .float64 => true
  | _ => false

/-- Models `pd.api.types.is_bool_dtype`. -/
def is_bool_dtype : Dtype → Bool
  | .boolean => true
  | _ => false

/-- Models `pd.api.types.is_datetime64_any_dtype`. -/
def is_datetime64_any_dtype : Dtype → Bool
  | .datetime64 => true
  | _ => false

/-- `infer_sql_type` from the source: maps a column dtype to a SQL type
string by the if / elif chain integer, float, bool, datetime, else TEXT. -/
def infer_sql_type (dtype : Dtype) : String :=
  if is_integer_dtype dtype then "INTEGER"
  else if is_float_dtype dtype then "REAL"
  else if is_bool_dtype dtype then "BOOLEAN"
  else if is_datetime64_any_dtype dtype then "TIMESTAMP"
  else "TEXT"

/-- The SQL type the pipeline assigns to one CSV column:
`infer_sql_type(df[col].dtype)`. -/
def inferColumnType (cells : List Cell) : String :=
  infer_sql_type (pandasDtype cells)

/-- A parsed dataframe: the CSV header row and the data rows.  Rows shorter
than the header are padded with missing entries by the reader. -/
structure Csv where
  header : List String
  rows : List (List Cell)
deriving DecidableEq, Repr

/-- The cells of column `i` of the dataframe. -/
def Csv.column (df : Csv) (i : Nat) : List Cell :=
  df.rows.map (fun r => r.getD i Cell.missing)

/-- The inferred schema of the source:
`[(col, infer_sql_type(df[col].dtype)) for col in df.columns]`. -/
def inferredSchema (df : Csv) : List (String × String) :=
  df.header.enum.map (fun p => (p.2, inferColumnType (df.column p.1)))

/-- The claim states that an all-missing column resolves to TEXT.  The
code resolves it to REAL: pandas gives an all-missing column the float64
dtype (every entry becomes NaN), and `infer_sql_type` maps float64 to
REAL, not TEXT. -/
theorem C1_all_missing_counterexample :
    inferColumnType [Cell.missing, Cell.missing] = "REAL" ∧
    inferColumnType [Cell.missing, Cell.missing] ≠ "TEXT" := by
  constructor
  · rfl
  · decide

/-- Amended C1: type inference returns exactly one of INTEGER, REAL,
BOOLEAN, TIMESTAMP, TEXT, chosen by the precedence integer, then real,
then boolean, then timestamp, then TEXT as catch-all.  A nonempty column
containing only integer-formatted values resolves to INTEGER; an
all-missing column resolves to REAL (the dataframe library gives it a
floating dtype); a column with no rows resolves to TEXT. -/
theorem C1_inference_amended :
    (∀ d, infer_sql_type d = "INTEGER" ∨ infer_sql_type d = "REAL" ∨
      infer_sql_type d = "BOOLEAN" ∨ infer_sql_type d = "TIMESTAMP" ∨
      infer_sql_type d = "TEXT") ∧
    (∀ d, is_integer_dtype d = true → infer_sql_type d = "INTEGER") ∧
    (∀ d, is_integer_dtype d = false → is_float_dtype d = true →
      infer_sql_type d = "REAL") ∧
    (∀ d, is_integer_dtype d = false → is_float_dtype d = false →
      is_bool_dtype d = true → infer_sql_type d = "BOOLEAN") ∧
    (∀ d, is_integer_dtype d = false → is_float_dtype d = false →
      is_bool_dtype d = false → is_datetime64_any_dtype d = true →
      infer_sql_type d = "TIMESTAMP") ∧
    (∀ d, is_integer_dtype d = false → is_float_dtype d = false →
      is_bool_dtype d = false → is_datetime64_any_dtype d = false →
      infer_sql_type d = "TEXT") ∧
    (∀ cells : List Cell, cells ≠ [] → cells.all Cell.isIntTok = true →
      inferColumnType cells = "INTEGER") ∧
    (∀ cells : List Cell, cells ≠ [] → cells.all Cell.isMissing = true →
      inferColumnType cells = "REAL") ∧
    inferColumnType [] = "TEXT" := by
  refine ⟨fun d => by cases d <;> simp [infer_sql_type, is_integer_dtype,
      is_float_dtype, is_bool_dtype, is_datetime64_any_dtype],
    fun d h => by cases d <;> simp_all [infer_sql_type, is_integer_dtype],
    fun d h1 h2 => by cases d <;> simp_all [infer_sql_type, is_integer_dtype,
      is_float_dtype],
    fun d h1 h2 h3 => by cases d <;> simp_all [infer_sql_type,
      is_integer_dtype, is_float_dtype, is_bool_dtype],
    fun d h1 h2 h3 h4 => by cases d <;> simp_all [infer_sql_type,
      is_integer_dtype, is_float_dtype, is_bool_dtype,
      is_datetime64_any_dtype],
    fun d h1 h2 h3 h4 => by cases d <;> simp_all [infer_sql_type,
      is_integer_dtype, is_float_dtype, is_bool_dtype,
      is_datetime64_any_dtype],
    ?_, ?_, rfl⟩
  · intro cells hne hall
    cases cells with
    | nil => exact absurd rfl hne
    | cons c rest =>
        simp only [inferColumnType, pandasDtype, List.isEmpty_cons,
          Bool.false_eq_true, if_false, hall, if_true]
        rfl
  · intro cells hne hall
    cases cells with
    | nil => exact absurd rfl hne
    | cons c rest =>
        have hc : c = Cell.missing := by
          cases c <;> simp_all [List.all_cons, Cell.isMissing]
        have hint : (c :: rest).all Cell.isIntTok = false := by
          subst hc
          simp [List.all_cons, Cell.isIntTok]
        have hnum : (c :: rest).all Cell.isNumericOrMissing = true := by
          simp only [List.all_eq_true] at hall ⊢
          intro x hx
          have := hall x hx
          cases x <;> simp_all [Cell.isMissing, Cell.isNumericOrMissing]
        simp only [inferColumnType, pandasDtype, List.isEmpty_cons,
          Bool.false_eq_true, if_false, hint, hnum, if_true]
        rfl

/-- Concrete instance of the amended C1 theorem: a nonempty integer-only
column resolves to INTEGER and a nonempty all-missing column to REAL. -/
theorem C1_inference_witness :
    ([Cell.intTok 3, Cell.intTok 7] ≠ ([] : List Cell) ∧
      inferColumnType [Cell.intTok 3, Cell.intTok 7] = "INTEGER") ∧
    ([Cell.missing] ≠ ([] : List Cell) ∧
      inferColumnType [Cell.missing] = "REAL") :=
  ⟨⟨by decide, C1_inference_amended.2.2.2.2.2.2.1
      [Cell.intTok 3, Cell.intTok 7] (by decide) (by decide)⟩,
   ⟨by decide, C1_inference_amended.2.2.2.2.2.2.2.1
      [Cell.missing] (by decide) (by decide)⟩⟩

/-- A persisted SQLite table: its declared schema, in column order, as
returned by `PRAGMA table_info` (name and declared type string), and its
rows in insertion order. -/
structure Table where
  schema : List (String × String)
  rows : List (List Cell)
deriving DecidableEq, Repr

/-- The SQLite store: the tables of the database in creation order, as
listed by `sqlite_master`. -/
abbrev Store := List (String × Table)

/-- Finds the table persisted under a name, if any. -/
def findTable : Store → String → Option Table
  | [], _ => none
  | e :: rest, n => if e.1 = n then some e.2 else findTable rest n

/-- `table_exists` from the source: queries `sqlite_master` for the name. -/
def table_exists (db : Store) (table_name : String) : Bool :=
  (findTable db table_name).isSome

/-- `get_table_schema` from the source: `PRAGMA table_info` returns the
ordered (name, type) pairs of the table, and no rows when the table does
not exist. -/
def get_table_schema (db : Store) (table_name : String) : List (String × String) :=
  match findTable db table_name with
  | some t => t.schema
  | none => []

/-- Models the `.strip()` method of Python strings: removes leading and
trailing whitespace. -/
def pyStrip (s : String) : String :=
  ⟨((s.data.dropWhile Char.isWhitespace).reverse.dropWhile Char.isWhitespace).reverse⟩

/-- Models the `.lower()` method of Python strings. -/
def pyLower (s : String) : String :=
  ⟨s.data.map Char.toLower⟩

/-- `log_error` from the source: appends one line to `error_log.txt`. -/
def log_error (log : List String) (message : String) : List String :=
  log ++ [message]

/-- True when the identifier contains no double quote at all.  The loader
interpolates identifiers with plain double quotes and no escaping
(f-strings like `CREATE TABLE IF NOT EXISTS "{name}"`), and a quote-free
identifier is read back by SQLite exactly as written.  This is the
well-behaved region the source implicitly assumes; quote-containing names
go through `parseQuotedIdent` below. -/
def validIdent (s : String) : Bool :=
  !(s.data.any (fun c => c = '"'))

/-- How SQLite reads the interpolated identifier text `"` ++ s ++ `"`:
inside a double-quoted identifier, `""` denotes one literal quote.  The
scan returns the collapsed name when every quote of `s` belongs to such an
adjacent pair, so the token ends exactly at the appended closing quote.
Any other quote ends the identifier early and derails the statement; the
model reports those as statement errors (almost always a SQLite syntax
error — headers crafted so the leaked remainder reassembles into
different valid SQL, i.e. injection, are outside the model). -/
def parseQuotedChars : List Char → Option (List Char)
  | [] => some []
  | [c] => if c = '"' then none else some [c]
  | c :: c2 :: rest =>
      if c = '"' then
        if c2 = '"' then (parseQuotedChars rest).map (fun l => '"' :: l)
        else none
      else (parseQuotedChars (c2 :: rest)).map (fun l => c :: l)

/-- The table or column name SQLite actually uses for an interpolated
identifier, when the statement parses at all. -/
def parseQuotedIdent (s : String) : Option String :=
  (parseQuotedChars s.data).map (fun l => ⟨l⟩)

/-- Reads every interpolated column name of the built statement,
collapsing escaped quotes; fails when any column name derails it. -/
def parseSchema : List (String × String) → Option (List (String × String))
  | [] => some []
  | c :: rest =>
      (parseQuotedIdent c.1).bind (fun p =>
        (parseSchema rest).map (fun prest => (p, c.2) :: prest))

/-- True when no two columns of the declared schema share a name; SQLite
rejects a table definition with a duplicate column name. -/
def nodupNames : List (String × String) → Bool
  | [] => true
  | c :: rest => !(rest.any (fun d => d.1 = c.1)) && nodupNames rest

/-- Removes every table persisted under the name. -/
def dropTable : Store → String → Store
  | [], _ => []
  | e :: rest, table_name =>
      if e.1 = table_name then dropTable rest table_name
      else e :: dropTable rest table_name

/-- Models executing the built `DROP TABLE IF EXISTS` statement: fails
when the interpolated identifier derails the statement, otherwise removes
the table under the parsed name and is a no-op if it is absent. -/
def dropTableIfExists (db : Store) (table_name : String) : Except String Store :=
  match parseQuotedIdent table_name with
  | some pname => Except.ok (dropTable db pname)
  | none => Except.error "syntax error in DROP TABLE statement"

/-- Models executing the built `CREATE TABLE IF NOT EXISTS` statement.
Identifiers are read with quote escaping, so a name containing only
escaped `""` pairs succeeds with the collapsed name (`a""b` creates a
column literally named `a"b`) while other embedded quotes derail the
statement; an empty column list is a parse error regardless of table
existence.  Existence is checked for the parsed table name: if that table
already exists the statement is a no-op; a duplicate parsed column name
is rejected when the table is actually created; otherwise the table is
created empty under the parsed names. -/
def createTableIfNotExists (db : Store) (table_name : String)
    (schema : List (String × String)) : Except String Store :=
  match parseQuotedIdent table_name, parseSchema schema with
  | some pname, some pschema =>
      if pschema.isEmpty then Except.error "syntax error in CREATE TABLE statement"
      else if table_exists db pname then Except.ok db
      else if !nodupNames pschema then Except.error "duplicate column name"
      else Except.ok (db ++ [(pname, ⟨pschema, []⟩)])
  | _, _ => Except.error "syntax error in CREATE TABLE statement"

/-- The effect of a successful bulk INSERT: appends the rows to the named
table. -/
def insertRows : Store → String → List (List Cell) → Store
  | [], _, _ => []
  | e :: rest, table_name, newRows =>
      (if e.1 = table_name then (e.1, ⟨e.2.schema, e.2.rows ++ newRows⟩) else e)
        :: insertRows rest table_name newRows

/-- The pandas fallback mapping of column dtypes to SQLite types, used
when `to_sql` itself has to create a missing table (pandas `_SQL_TYPES`):
note booleans map to INTEGER there, unlike `infer_sql_type`. -/
def pandasSqlType : Dtype → String
  | .int64 => "INTEGER"
  | .float64 => "REAL"
  | .boolean => "INTEGER"
  | .datetime64 => "TIMESTAMP"
  | .pyobject => "TEXT"

/-- The schema pandas declares when `to_sql` creates the table itself. -/
def pandasCreatedSchema (df : Csv) : List (String × String) :=
  df.header.enum.map (fun p => (p.2, pandasSqlType (pandasDtype (df.column p.1))))

/-- Models `df.to_sql(table_name, conn, if_exists='append', index=False)`.
Pandas escapes identifiers correctly, so the raw dataframe and table
names are used here.  When a table with that exact name exists, one
INSERT naming every dataframe column runs inside a single transaction: if
the dataframe has no rows pandas issues no INSERT at all; otherwise the
INSERT fails (rolled back, no rows kept) when some dataframe column is
missing from the table — e.g. after the CREATE collapsed a quoted name —
and appends every row when all columns are present.  When no table with
that name exists (e.g. the CREATE collapsed the table name itself),
pandas creates it with its own type mapping and inserts every row. -/
def to_sql_append (db : Store) (table_name : String) (df : Csv) :
    Except String Store :=
  match findTable db table_name with
  | some t =>
      if df.rows.isEmpty
          || df.header.all (fun c => (t.schema.map Prod.fst).contains c) then
        Except.ok (insertRows db table_name df.rows)
      else Except.error "table has no column named one of the frame columns"
  | none => Except.ok (db ++ [(table_name, ⟨pandasCreatedSchema df, df.rows⟩)])

/-- Outcome classification of one loader invocation, following the
messages the source prints: table loaded, skipped on request, skipped
after an unrecognized action, or aborted by a caught exception. -/
inductive LoadResult
  | loaded
  | skipped
  | invalidSkipped
  | errored
deriving DecidableEq, Repr

/-- The store, the error log and the outcome after a loader invocation. -/
structure LoadOutcome where
  db : Store
  log : List String
  result : LoadResult
deriving DecidableEq, Repr

/-- Lines 74 to 79 of the source: build the column definitions, execute
`CREATE TABLE IF NOT EXISTS`, commit, then run the `to_sql` append; an
error raised at either statement is caught by the surrounding handler,
which prints and logs it — note a failure of the append leaves the table
the CREATE just made (committed, empty) behind. -/
def createAndAppend (db : Store) (log : List String) (df : Csv)
    (table_name : String) (inferred : List (String × String)) : LoadOutcome :=
  match createTableIfNotExists db table_name inferred with
  | Except.error e => ⟨db, log_error log ("[load_csv_to_table] " ++ e), LoadResult.errored⟩
  | Except.ok db2 =>
      match to_sql_append db2 table_name df with
      | Except.error e =>
          ⟨db2, log_error log ("[load_csv_to_table] " ++ e), LoadResult.errored⟩
      | Except.ok db3 => ⟨db3, log, LoadResult.loaded⟩

/-- The overwrite branch of the conflict handler: execute
`DROP TABLE IF EXISTS` and fall through to table creation and row
insertion; a raised drop error is caught by the surrounding handler. -/
def overwriteAndLoad (db : Store) (log : List String) (df : Csv)
    (table_name : String) (inferred : List (String × String)) : LoadOutcome :=
  match dropTableIfExists db table_name with
  | Except.error e =>
      ⟨db, log_error log ("[load_csv_to_table] " ++ e), LoadResult.errored⟩
  | Except.ok db2 => createAndAppend db2 log df table_name inferred

/-- `load_csv_to_table` from the source.  `src` is the outcome of
`pd.read_csv`; `inputs` is the stream of interactive answers consumed at
the conflict prompt (action, and for a rename the new table name); an
exhausted stream models end of input, whose error the handler catches.
The rename branch re-reads the same source and recurses on the remaining
input stream. -/
def load_csv_to_table (db : Store) (log : List String) (src : Except String Csv) :
    String → List String → LoadOutcome
  | table_name, inputs =>
    match src with
    | Except.error e =>
        ⟨db, log_error log ("[load_csv_to_table] " ++ e), LoadResult.errored⟩
    | Except.ok df =>
        let inferred := inferredSchema df
        if table_exists db table_name then
          if get_table_schema db table_name ≠ inferred then
            match inputs with
            | [] =>
                ⟨db, log_error log "[load_csv_to_table] EOF when reading a line",
                  LoadResult.errored⟩
            | action :: rest =>
                let a := pyLower (pyStrip action)
                if a = "o" then overwriteAndLoad db log df table_name inferred
                else if a = "r" then
                  match rest with
                  | [] =>
                      ⟨db, log_error log "[load_csv_to_table] EOF when reading a line",
                        LoadResult.errored⟩
                  | newName :: rest2 =>
                      load_csv_to_table db log src (pyStrip newName) rest2
                else if a = "s" then ⟨db, log, LoadResult.skipped⟩
                else ⟨db, log, LoadResult.invalidSkipped⟩
          else createAndAppend db log df table_name inferred
        else createAndAppend db log df table_name inferred

/-- The schema comparator of lines 53 to 57: no comparison without a
persisted table, otherwise positional equality of the full (name, type)
sequences decides between match and conflict. -/
inductive CompareResult
  | noExistingTable
  | schemaMatch
  | schemaConflict
deriving DecidableEq, Repr

/-- The comparison the loader performs for a freshly inferred schema. -/
def schemaComparison (db : Store) (table_name : String)
    (inferred : List (String × String)) : CompareResult :=
  if table_exists db table_name then
    if get_table_schema db table_name ≠ inferred then CompareResult.schemaConflict
    else CompareResult.schemaMatch
  else CompareResult.noExistingTable

/-- C4: for a persisted table, the comparator reports a conflict exactly
when the persisted ordered (name, type) sequence is not positionally equal
to the inferred one; in particular a pure reordering of identically named
and typed columns is a conflict. -/
theorem C4_comparator_positional :
    (∀ (db : Store) (table_name : String) (inferred : List (String × String)),
      table_exists db table_name = true →
      (schemaComparison db table_name inferred = CompareResult.schemaConflict ↔
        get_table_schema db table_name ≠ inferred)) ∧
    schemaComparison [("t", ⟨[("a", "INTEGER"), ("b", "TEXT")], []⟩)] "t"
      [("b", "TEXT"), ("a", "INTEGER")] = CompareResult.schemaConflict := by
  constructor
  · intro db table_name inferred hex
    unfold schemaComparison
    rw [hex]
    by_cases h : get_table_schema db table_name = inferred
    · simp [h]
    · simp [h]
  · decide

/-- Concrete application of the C4 theorem: with a table persisted as
(a INTEGER, b TEXT), comparing against the identical sequence is not a
conflict and comparing against a retyped sequence is. -/
theorem C4_comparator_witness :
    table_exists [("t", ⟨[("a", "INTEGER"), ("b", "TEXT")], []⟩)] "t" = true ∧
    (schemaComparison [("t", ⟨[("a", "INTEGER"), ("b", "TEXT")], []⟩)] "t"
        [("a", "REAL"), ("b", "TEXT")] = CompareResult.schemaConflict ↔
      get_table_schema [("t", ⟨[("a", "INTEGER"), ("b", "TEXT")], []⟩)] "t" ≠
        [("a", "REAL"), ("b", "TEXT")]) :=
  ⟨by decide, C4_comparator_positional.1
    [("t", ⟨[("a", "INTEGER"), ("b", "TEXT")], []⟩)] "t"
    [("a", "REAL"), ("b", "TEXT")] (by decide)⟩


/-- The rows persisted under a table name (empty when absent). -/
def tableRows (db : Store) (table_name : String) : List (List Cell) :=
  match findTable db table_name with
  | some t => t.rows
  | none => []

/-- Bundles the conditions under which the built CREATE TABLE statement is
acceptable to SQLite: at least one column, no identifier broken by an
unescaped double quote, no duplicate column name. -/
def schemaCreatable (schema : List (String × String)) : Bool :=
  !schema.isEmpty && !schema.any (fun c => !validIdent c.1) && nodupNames schema

theorem findTable_cons (e : String × Table) (rest : Store) (m : String) :
    findTable (e :: rest) m = if e.1 = m then some e.2 else findTable rest m := rfl

theorem dropTable_cons (e : String × Table) (rest : Store) (n : String) :
    dropTable (e :: rest) n
      = if e.1 = n then dropTable rest n else e :: dropTable rest n := rfl

theorem insertRows_cons (e : String × Table) (rest : Store) (n : String)
    (rs : List (List Cell)) :
    insertRows (e :: rest) n rs
      = (if e.1 = n then (e.1, ⟨e.2.schema, e.2.rows ++ rs⟩) else e)
          :: insertRows rest n rs := rfl

theorem findTable_eq_none {db : Store} {n : String}
    (h : table_exists db n = false) : findTable db n = none := by
  unfold table_exists at h
  cases hf : findTable db n with
  | none => rfl
  | some t => rw [hf] at h; simp at h

theorem table_exists_eq_true {db : Store} {n : String} {t : Table}
    (h : findTable db n = some t) : table_exists db n = true := by
  unfold table_exists
  rw [h]
  rfl

theorem get_table_schema_eq {db : Store} {n : String} {t : Table}
    (h : findTable db n = some t) : get_table_schema db n = t.schema := by
  unfold get_table_schema
  rw [h]

theorem tableRows_eq {db : Store} {n : String} {t : Table}
    (h : findTable db n = some t) : tableRows db n = t.rows := by
  unfold tableRows
  rw [h]

theorem findTable_dropTable_self (db : Store) (n : String) :
    findTable (dropTable db n) n = none := by
  induction db with
  | nil => rfl
  | cons e rest ih =>
      rw [dropTable_cons]
      by_cases he : e.1 = n
      · rw [if_pos he]
        exact ih
      · rw [if_neg he, findTable_cons, if_neg he]
        exact ih

theorem findTable_dropTable_ne (db : Store) {n m : String} (h : m ≠ n) :
    findTable (dropTable db n) m = findTable db m := by
  induction db with
  | nil => rfl
  | cons e rest ih =>
      rw [dropTable_cons]
      by_cases he : e.1 = n
      · have hm : ¬e.1 = m := by rw [he]; exact fun hc => h hc.symm
        rw [if_pos he, findTable_cons, if_neg hm]
        exact ih
      · rw [if_neg he, findTable_cons, findTable_cons]
        by_cases hm : e.1 = m
        · rw [if_pos hm, if_pos hm]
        · rw [if_neg hm, if_neg hm]
          exact ih

theorem findTable_append_of_none {xs : Store} (ys : Store) {n : String}
    (h : findTable xs n = none) : findTable (xs ++ ys) n = findTable ys n := by
  induction xs with
  | nil => rfl
  | cons e rest ih =>
      rw [findTable_cons] at h
      by_cases he : e.1 = n
      · rw [if_pos he] at h
        exact absurd h (by simp)
      · rw [if_neg he] at h
        rw [List.cons_append, findTable_cons, if_neg he]
        exact ih h

theorem findTable_insertRows_self (db : Store) (n : String) (rs : List (List Cell)) :
    findTable (insertRows db n rs) n
      = (findTable db n).map (fun t => ⟨t.schema, t.rows ++ rs⟩) := by
  induction db with
  | nil => rfl
  | cons e rest ih =>
      rw [insertRows_cons]
      by_cases he : e.1 = n
      · rw [if_pos he, findTable_cons, findTable_cons, if_pos he]
        simp [he]
      · rw [if_neg he, findTable_cons, findTable_cons, if_neg he, if_neg he]
        exact ih

theorem findTable_insertRows_ne (db : Store) {n m : String}
    (h : m ≠ n) (rs : List (List Cell)) :
    findTable (insertRows db n rs) m = findTable db m := by
  induction db with
  | nil => rfl
  | cons e rest ih =>
      rw [insertRows_cons]
      by_cases he : e.1 = n
      · have hm : ¬e.1 = m := by rw [he]; exact fun hc => h hc.symm
        rw [if_pos he, findTable_cons, findTable_cons, if_neg hm, if_neg hm]
        exact ih
      · rw [if_neg he, findTable_cons, findTable_cons]
        by_cases hm : e.1 = m
        · rw [if_pos hm, if_pos hm]
        · rw [if_neg hm, if_neg hm]
          exact ih

theorem schemaCreatable_spec {schema : List (String × String)}
    (h : schemaCreatable schema = true) :
    schema.isEmpty = false ∧ schema.any (fun c => !validIdent c.1) = false ∧
      nodupNames schema = true := by
  unfold schemaCreatable at h
  simp only [Bool.and_eq_true, Bool.not_eq_true'] at h
  exact ⟨h.1.1, h.1.2, h.2⟩

theorem parseQuotedChars_no_quote :
    ∀ l : List Char, l.all (fun c => !(c = '"')) = true →
      parseQuotedChars l = some l := by
  intro l
  induction l with
  | nil => intro _; rfl
  | cons c rest ih =>
      intro h
      have hc : ¬(c = '"') := by
        intro hcc
        subst hcc
        simp [List.all_cons] at h
      have hrest : rest.all (fun c => !(c = '"')) = true := by
        rw [List.all_cons, Bool.and_eq_true] at h
        exact h.2
      cases rest with
      | nil =>
          show parseQuotedChars [c] = some [c]
          simp only [parseQuotedChars]
          rw [if_neg hc]
      | cons c2 r =>
          show parseQuotedChars (c :: c2 :: r) = some (c :: c2 :: r)
          simp only [parseQuotedChars]
          rw [if_neg hc, ih hrest]
          rfl

theorem parseQuotedIdent_of_validIdent {s : String} (h : validIdent s = true) :
    parseQuotedIdent s = some s := by
  have h2 : s.data.any (fun c => c = '"') = false := by
    cases hh : s.data.any (fun c => c = '"')
    · rfl
    · unfold validIdent at h
      rw [hh] at h
      exact absurd h (by decide)
  have hall : s.data.all (fun c => !(c = '"')) = true := by
    rw [List.all_eq_true]
    intro x hx
    rw [List.any_eq_false] at h2
    simpa using h2 x hx
  unfold parseQuotedIdent
  rw [parseQuotedChars_no_quote s.data hall]
  rfl

theorem parseSchema_of_creatable :
    ∀ {schema : List (String × String)},
      schema.any (fun c => !validIdent c.1) = false →
      parseSchema schema = some schema := by
  intro schema
  induction schema with
  | nil => intro _; rfl
  | cons c rest ih =>
      intro h
      rw [List.any_cons, Bool.or_eq_false_iff] at h
      obtain ⟨hc, hrest⟩ := h
      have hcv : validIdent c.1 = true := by
        cases hv : validIdent c.1
        · rw [hv] at hc
          exact absurd hc (by decide)
        · rfl
      show parseSchema (c :: rest) = some (c :: rest)
      simp only [parseSchema, parseQuotedIdent_of_validIdent hcv, ih hrest]
      rfl

theorem inferredSchema_names (df : Csv) :
    (inferredSchema df).map Prod.fst = df.header := by
  unfold inferredSchema
  rw [List.map_map]
  exact List.enum_map_snd df.header

theorem all_contains_self (l : List String) :
    l.all (fun c => l.contains c) = true := by
  rw [List.all_eq_true]
  intro x hx
  exact List.elem_eq_true_of_mem hx

theorem to_sql_append_matching {db : Store} {n : String} (df : Csv) {t : Table}
    (hfind : findTable db n = some t)
    (hnames : t.schema.map Prod.fst = df.header) :
    to_sql_append db n df = Except.ok (insertRows db n df.rows) := by
  unfold to_sql_append
  rw [hfind]
  dsimp only
  rw [hnames]
  have hcond : (df.rows.isEmpty
      || df.header.all (fun c => df.header.contains c)) = true := by
    rw [all_contains_self, Bool.or_true]
  rw [if_pos hcond]

theorem createTableIfNotExists_fresh {db : Store} {n : String}
    {schema : List (String × String)} (hname : validIdent n = true)
    (hsch : schemaCreatable schema = true) (hfresh : table_exists db n = false) :
    createTableIfNotExists db n schema = Except.ok (db ++ [(n, ⟨schema, []⟩)]) := by
  obtain ⟨h1, h2, h3⟩ := schemaCreatable_spec hsch
  unfold createTableIfNotExists
  rw [parseQuotedIdent_of_validIdent hname, parseSchema_of_creatable h2]
  simp [h1, h3, hfresh]

theorem createTableIfNotExists_existing {db : Store} {n : String}
    {schema : List (String × String)} (hname : validIdent n = true)
    (hsch : schemaCreatable schema = true) (hex : table_exists db n = true) :
    createTableIfNotExists db n schema = Except.ok db := by
  obtain ⟨h1, h2, h3⟩ := schemaCreatable_spec hsch
  unfold createTableIfNotExists
  rw [parseQuotedIdent_of_validIdent hname, parseSchema_of_creatable h2]
  simp [h1, hex]

theorem createAndAppend_fresh {db : Store} (log : List String) (df : Csv)
    {n : String} (hname : validIdent n = true)
    (hsch : schemaCreatable (inferredSchema df) = true)
    (hfresh : table_exists db n = false) :
    createAndAppend db log df n (inferredSchema df)
      = ⟨insertRows (db ++ [(n, ⟨inferredSchema df, []⟩)]) n df.rows, log,
          LoadResult.loaded⟩ := by
  unfold createAndAppend
  rw [createTableIfNotExists_fresh hname hsch hfresh]
  dsimp only
  have hfind : findTable (db ++ [(n, (⟨inferredSchema df, []⟩ : Table))]) n
      = some ⟨inferredSchema df, []⟩ := by
    rw [findTable_append_of_none _ (findTable_eq_none hfresh), findTable_cons]
    simp
  rw [to_sql_append_matching df hfind (inferredSchema_names df)]

theorem createAndAppend_existing {db : Store} (log : List String) (df : Csv)
    {n : String} {t : Table} (hname : validIdent n = true)
    (hsch : schemaCreatable (inferredSchema df) = true)
    (hfind : findTable db n = some t)
    (hschema : t.schema = inferredSchema df) :
    createAndAppend db log df n (inferredSchema df)
      = ⟨insertRows db n df.rows, log, LoadResult.loaded⟩ := by
  unfold createAndAppend
  rw [createTableIfNotExists_existing hname hsch (table_exists_eq_true hfind)]
  dsimp only
  rw [to_sql_append_matching df hfind (by rw [hschema]; exact inferredSchema_names df)]

theorem load_csv_to_table_fresh (db : Store) (log : List String) (df : Csv)
    (n : String) (inputs : List String) (hfresh : table_exists db n = false) :
    load_csv_to_table db log (Except.ok df) n inputs
      = createAndAppend db log df n (inferredSchema df) := by
  rw [load_csv_to_table.eq_def]
  simp [hfresh]

theorem load_csv_to_table_match (db : Store) (log : List String) (df : Csv)
    (n : String) (inputs : List String) (hex : table_exists db n = true)
    (heq : get_table_schema db n = inferredSchema df) :
    load_csv_to_table db log (Except.ok df) n inputs
      = createAndAppend db log df n (inferredSchema df) := by
  rw [load_csv_to_table.eq_def]
  simp [hex, heq]

theorem load_csv_to_table_overwrite (db : Store) (log : List String) (df : Csv)
    (n : String) (rest : List String) (hex : table_exists db n = true)
    (hne : get_table_schema db n ≠ inferredSchema df) :
    load_csv_to_table db log (Except.ok df) n ("o" :: rest)
      = overwriteAndLoad db log df n (inferredSchema df) := by
  have ho : pyLower (pyStrip "o") = "o" := by decide
  rw [load_csv_to_table.eq_def]
  simp [hex, hne, ho]

/-- C5: on a detected schema conflict, choosing Overwrite drops the
existing table and recreates it with the newly inferred schema, so
afterwards the persisted schema equals the inferred one and the rows are
exactly the new source rows. -/
theorem C5_overwrite_thm (db : Store) (log : List String) (df : Csv)
    (name : String) (rest : List String)
    (hname : validIdent name = true)
    (hsch : schemaCreatable (inferredSchema df) = true)
    (hex : table_exists db name = true)
    (hne : get_table_schema db name ≠ inferredSchema df) :
    schemaComparison db name (inferredSchema df) = CompareResult.schemaConflict ∧
    (load_csv_to_table db log (Except.ok df) name ("o" :: rest)).result
      = LoadResult.loaded ∧
    get_table_schema
        (load_csv_to_table db log (Except.ok df) name ("o" :: rest)).db name
      = inferredSchema df ∧
    tableRows (load_csv_to_table db log (Except.ok df) name ("o" :: rest)).db name
      = df.rows := by
  have hdropfresh : table_exists (dropTable db name) name = false := by
    unfold table_exists
    rw [findTable_dropTable_self]
    rfl
  have hover : overwriteAndLoad db log df name (inferredSchema df)
      = createAndAppend (dropTable db name) log df name (inferredSchema df) := by
    simp [overwriteAndLoad, dropTableIfExists, parseQuotedIdent_of_validIdent hname]
  have hload : load_csv_to_table db log (Except.ok df) name ("o" :: rest)
      = ⟨insertRows (dropTable db name ++ [(name, ⟨inferredSchema df, []⟩)]) name
            df.rows, log, LoadResult.loaded⟩ := by
    rw [load_csv_to_table_overwrite db log df name rest hex hne, hover,
        createAndAppend_fresh log df hname hsch hdropfresh]
  have hfind : findTable
      (insertRows (dropTable db name ++ [(name, ⟨inferredSchema df, []⟩)]) name
        df.rows) name = some ⟨inferredSchema df, df.rows⟩ := by
    rw [findTable_insertRows_self,
        findTable_append_of_none _ (findTable_dropTable_self db name)]
    simp [findTable_cons]
  refine ⟨?_, ?_, ?_, ?_⟩
  · simp [schemaComparison, hex, hne]
  · rw [hload]
  · rw [hload]
    exact get_table_schema_eq hfind
  · rw [hload]
    exact tableRows_eq hfind

def dbC5 : Store := [("t", ⟨[("a", "INTEGER")], [[Cell.intTok 1], [Cell.intTok 2]]⟩)]

def dfC5 : Csv := ⟨["a"], [[Cell.floatTok "1.5"]]⟩

/-- Concrete run of the C5 theorem: the scenario of the specification, a
table loaded as (a INTEGER) with two rows overwritten by a source whose
column a is now REAL with one row. -/
theorem C5_overwrite_witness :
    (table_exists dbC5 "t" = true ∧
      get_table_schema dbC5 "t" ≠ inferredSchema dfC5) ∧
    schemaComparison dbC5 "t" (inferredSchema dfC5)
      = CompareResult.schemaConflict ∧
    get_table_schema (load_csv_to_table dbC5 [] (Except.ok dfC5) "t" ["o"]).db "t"
      = inferredSchema dfC5 ∧
    tableRows (load_csv_to_table dbC5 [] (Except.ok dfC5) "t" ["o"]).db "t"
      = dfC5.rows :=
  ⟨⟨by decide, by decide⟩,
    (C5_overwrite_thm dbC5 [] dfC5 "t" [] (by decide) (by decide) (by decide)
      (by decide)).1,
    (C5_overwrite_thm dbC5 [] dfC5 "t" [] (by decide) (by decide) (by decide)
      (by decide)).2.2.1,
    (C5_overwrite_thm dbC5 [] dfC5 "t" [] (by decide) (by decide) (by decide)
      (by decide)).2.2.2⟩

/-- C9: loading a source under a fresh table name succeeds, and a second
load of the same source under the same name finds a persisted schema that
is positionally equal to the re-inferred one: the comparison is Match,
never Conflict. -/
theorem C9_reload_match (db : Store) (log : List String) (df : Csv)
    (name : String) (hname : validIdent name = true)
    (hsch : schemaCreatable (inferredSchema df) = true)
    (hfresh : table_exists db name = false) :
    (load_csv_to_table db log (Except.ok df) name []).result = LoadResult.loaded ∧
    get_table_schema (load_csv_to_table db log (Except.ok df) name []).db name
      = inferredSchema df ∧
    schemaComparison (load_csv_to_table db log (Except.ok df) name []).db name
      (inferredSchema df) = CompareResult.schemaMatch ∧
    schemaComparison (load_csv_to_table db log (Except.ok df) name []).db name
      (inferredSchema df) ≠ CompareResult.schemaConflict := by
  have hload : load_csv_to_table db log (Except.ok df) name []
      = ⟨insertRows (db ++ [(name, ⟨inferredSchema df, []⟩)]) name df.rows, log,
          LoadResult.loaded⟩ := by
    rw [load_csv_to_table_fresh db log df name [] hfresh,
        createAndAppend_fresh log df hname hsch hfresh]
  have hfind : findTable
      (insertRows (db ++ [(name, ⟨inferredSchema df, []⟩)]) name df.rows) name
      = some ⟨inferredSchema df, df.rows⟩ := by
    rw [findTable_insertRows_self,
        findTable_append_of_none _ (findTable_eq_none hfresh)]
    simp [findTable_cons]
  have hcmp : schemaComparison
      (insertRows (db ++ [(name, ⟨inferredSchema df, []⟩)]) name df.rows) name
      (inferredSchema df) = CompareResult.schemaMatch := by
    unfold schemaComparison
    rw [table_exists_eq_true hfind, get_table_schema_eq hfind]
    simp
  refine ⟨?_, ?_, ?_, ?_⟩
  · rw [hload]
  · rw [hload]
    exact get_table_schema_eq hfind
  · rw [hload]
    exact hcmp
  · rw [hload]
    intro hc
    rw [hcmp] at hc
    exact CompareResult.noConfusion hc

def dfC9 : Csv :=
  ⟨["a", "b"], [[Cell.intTok 1, Cell.strTok "x"], [Cell.intTok 2, Cell.strTok "y"]]⟩

/-- Concrete run of the C9 theorem on the specification scenario source
with columns (a INTEGER, b TEXT) and a fresh name in an empty store. -/
theorem C9_reload_witness :
    (validIdent "T" = true ∧ table_exists [] "T" = false) ∧
    schemaComparison (load_csv_to_table [] [] (Except.ok dfC9) "T" []).db "T"
      (inferredSchema dfC9) = CompareResult.schemaMatch :=
  ⟨⟨by decide, by decide⟩,
    (C9_reload_match [] [] dfC9 "T" (by decide) (by decide) (by decide)).2.2.1⟩

/-- C10: under Match (or a fresh name) the loader only creates if absent
and appends: the schema and previously present rows are unchanged, other
tables are untouched, and repeating the very same load accumulates the
source rows a second time. -/
theorem C10_append_frame (db : Store) (log : List String) (df : Csv)
    (name : String) (hname : validIdent name = true)
    (hsch : schemaCreatable (inferredSchema df) = true)
    (hex : table_exists db name = true)
    (heq : get_table_schema db name = inferredSchema df) :
    (load_csv_to_table db log (Except.ok df) name []).result = LoadResult.loaded ∧
    get_table_schema (load_csv_to_table db log (Except.ok df) name []).db name
      = get_table_schema db name ∧
    tableRows (load_csv_to_table db log (Except.ok df) name []).db name
      = tableRows db name ++ df.rows ∧
    (∀ m, m ≠ name →
      findTable (load_csv_to_table db log (Except.ok df) name []).db m
        = findTable db m) ∧
    tableRows (load_csv_to_table
        (load_csv_to_table db log (Except.ok df) name []).db
        (load_csv_to_table db log (Except.ok df) name []).log
        (Except.ok df) name []).db name
      = tableRows db name ++ df.rows ++ df.rows := by
  cases hf : findTable db name with
  | none =>
      unfold table_exists at hex
      rw [hf] at hex
      simp at hex
  | some t =>
      have hschema : t.schema = inferredSchema df := by
        have h := heq
        rw [get_table_schema_eq hf] at h
        exact h
      have hload1 : load_csv_to_table db log (Except.ok df) name []
          = ⟨insertRows db name df.rows, log, LoadResult.loaded⟩ := by
        rw [load_csv_to_table_match db log df name [] hex heq,
            createAndAppend_existing log df hname hsch hf hschema]
      have hfind1 : findTable (insertRows db name df.rows) name
          = some ⟨t.schema, t.rows ++ df.rows⟩ := by
        rw [findTable_insertRows_self, hf]
        rfl
      have hex1 : table_exists (insertRows db name df.rows) name = true :=
        table_exists_eq_true hfind1
      have heq1 : get_table_schema (insertRows db name df.rows) name
          = inferredSchema df := by
        rw [get_table_schema_eq hfind1]
        rw [get_table_schema_eq hf] at heq
        exact heq
      have hload2 : load_csv_to_table (insertRows db name df.rows) log
            (Except.ok df) name []
          = ⟨insertRows (insertRows db name df.rows) name df.rows, log,
              LoadResult.loaded⟩ := by
        rw [load_csv_to_table_match _ log df name [] hex1 heq1,
            createAndAppend_existing log df hname hsch hfind1 hschema]
      have hfind2 : findTable
          (insertRows (insertRows db name df.rows) name df.rows) name
          = some ⟨t.schema, t.rows ++ df.rows ++ df.rows⟩ := by
        rw [findTable_insertRows_self, hfind1]
        rfl
      refine ⟨?_, ?_, ?_, ?_, ?_⟩
      · rw [hload1]
      · rw [hload1, get_table_schema_eq hfind1, get_table_schema_eq hf]
      · rw [hload1, tableRows_eq hfind1, tableRows_eq hf]
      · intro m hm
        rw [hload1]
        exact findTable_insertRows_ne db hm df.rows
      · rw [hload1]
        rw [show (⟨insertRows db name df.rows, log, LoadResult.loaded⟩ :
            LoadOutcome).db = insertRows db name df.rows from rfl,
          show (⟨insertRows db name df.rows, log, LoadResult.loaded⟩ :
            LoadOutcome).log = log from rfl]
        rw [hload2, tableRows_eq hfind2, tableRows_eq hf]

def dbC10 : Store := [("t", ⟨[("a", "INTEGER")], [[Cell.intTok 5]]⟩)]

def dfC10 : Csv := ⟨["a"], [[Cell.intTok 7]]⟩

/-- Concrete run of the C10 theorem: reloading a matching single-column
integer source appends and doubles the rows. -/
theorem C10_append_witness :
    (table_exists dbC10 "t" = true ∧
      get_table_schema dbC10 "t" = inferredSchema dfC10) ∧
    tableRows (load_csv_to_table dbC10 [] (Except.ok dfC10) "t" []).db "t"
      = tableRows dbC10 "t" ++ dfC10.rows ∧
    tableRows (load_csv_to_table
        (load_csv_to_table dbC10 [] (Except.ok dfC10) "t" []).db
        (load_csv_to_table dbC10 [] (Except.ok dfC10) "t" []).log
        (Except.ok dfC10) "t" []).db "t"
      = tableRows dbC10 "t" ++ dfC10.rows ++ dfC10.rows :=
  ⟨⟨by decide, by decide⟩,
    (C10_append_frame dbC10 [] dfC10 "t" (by decide) (by decide) (by decide)
      (by decide)).2.2.1,
    (C10_append_frame dbC10 [] dfC10 "t" (by decide) (by decide) (by decide)
      (by decide)).2.2.2.2⟩

def dbC2 : Store := [("t", ⟨[("a", "INTEGER")], [[Cell.intTok 1]]⟩)]

def dfC2 : Csv := ⟨["a\"b"], [[Cell.strTok "x"]]⟩

/-- The claim states every load is a full load or a no-op.  Counterexample:
a conflicting source whose column name contains a double quote; the
operator chooses Overwrite, the DROP succeeds, the rebuilt CREATE
statement is rejected, and the load ends in an error with the old table
destroyed — the store was mutated, yet nothing was loaded. -/
theorem C2_overwrite_drop_counterexample :
    table_exists dbC2 "t" = true ∧
    (load_csv_to_table dbC2 [] (Except.ok dfC2) "t" ["o"]).result
      ≠ LoadResult.loaded ∧
    (load_csv_to_table dbC2 [] (Except.ok dfC2) "t" ["o"]).db ≠ dbC2 ∧
    table_exists (load_csv_to_table dbC2 [] (Except.ok dfC2) "t" ["o"]).db "t"
      = false := by
  refine ⟨by decide, by decide, by decide, by decide⟩

/-- The fixed prompt template of `ask_ai_for_sql`: the schema snapshot and
the verbatim user request interpolated into constant surrounding text. -/
def sqlPrompt (user_request table_schema : String) : String :=
  "\nYou are an expert SQL assistant. The database uses SQLite. Given the following SQLite table schema:\n\n"
    ++ table_schema
    ++ "\n\nGenerate an SQL query that fulfills this user request:\n\"\"\""
    ++ user_request
    ++ "\"\"\"\n\nOnly return the SQL query.\n"

/-- What one translator call produces: the candidate (None on failure),
the lines appended to the error log, and the lines printed. -/
structure AskResult where
  candidate : Option String
  logEntries : List String
  printedLines : List String
deriving DecidableEq, Repr

/-- The body of the try block evaluates `openai.ChatCompletion.create`.
The module only binds `OpenAI` (`from openai import OpenAI`), so the name
`openai` is unbound and the lookup raises a NameError before any request
is sent to the completion service; with the pinned `openai>=1.0.0` package
the legacy `ChatCompletion` interface does not exist either.  The already
built prompt is therefore never used. -/
def chatCompletionAttempt (_prompt : String) : Except String String :=
  Except.error "NameError: name openai is not defined"

/-- The try / except structure of `ask_ai_for_sql`: a successful body
would return the stripped response text; any raised error is appended to
the error log, reported, and None is returned — nothing propagates to the
caller. -/
def ask_ai_core (attempt : Except String String) : AskResult :=
  match attempt with
  | Except.ok text => ⟨some (pyStrip text), [], []⟩
  | Except.error e => ⟨none, ["[ask_ai_for_sql] " ++ e], ["OpenAI Error: " ++ e]⟩

/-- `ask_ai_for_sql` from the source: build the prompt, attempt the
completion call, handle any raised error. -/
def ask_ai_for_sql (user_request table_schema : String) : AskResult :=
  ask_ai_core (chatCompletionAttempt (sqlPrompt user_request table_schema))

/-- The per-table column lines of `get_all_tables_and_schema`. -/
def schemaLines (schema : List (String × String)) : String :=
  schema.foldl (fun acc c => acc ++ "  - " ++ c.1 ++ " (" ++ c.2 ++ ")\n") ""

/-- `get_all_tables_and_schema` from the source: renders every table of
the store with its columns. -/
def get_all_tables_and_schema (db : Store) : String :=
  db.foldl (fun acc e =>
    acc ++ "\nTable: " ++ e.1 ++ "\n" ++ "Columns:\n" ++ schemaLines e.2.schema) ""

/-- The storage collaborator for free-form query strings (`conn.execute`
in the SQL shell and the chat flow): given the store and a query string,
either a possibly updated store with result rows, or a storage error. -/
abbrev ExecOracle : Type :=
  Store → String → Except String (Store × List (List Cell))

/-- The observable state of one interactive session: the store, the error
log, the lines printed to the operator (result-row echoes elided), the
query strings submitted to the storage collaborator, and how many main
loop commands were processed. -/
structure Session where
  db : Store
  log : List String
  printed : List String
  submitted : List String
  processed : Nat
deriving Repr

/-- `interactive_sql_shell` from the source: strip the input, leave on
exit or quit, otherwise submit the query; a storage error is printed and
the loop continues — nothing is written to the error log here. -/
def interactive_sql_shell (execQ : ExecOracle) : Session → List String → Session
  | st, [] => st
  | st, q :: qs =>
      let query := pyStrip q
      if pyLower query = "exit" ∨ pyLower query = "quit" then
        { st with printed := st.printed ++ ["Exiting SQL shell..."] }
      else
        match execQ st.db query with
        | Except.ok (db2, _rows) =>
            interactive_sql_shell execQ
              { st with db := db2, submitted := st.submitted ++ [query] } qs
        | Except.error e =>
            interactive_sql_shell execQ
              { st with
                  submitted := st.submitted ++ [query],
                  printed := st.printed ++ ["SQL Error: " ++ e] } qs

/-- One iteration of the main command loop, with the interactive data each
command consumes made explicit: for load, whether `os.path.exists` holds,
the parse outcome, the table name and the conflict answers; for sql, the
shell inputs; for chat, the request and the confirmation answer. -/
inductive Cmd
  | loadCmd (fileExists : Bool) (src : Except String Csv) (table_name : String)
      (inputs : List String)
  | sqlCmd (queries : List String)
  | chatCmd (user_request : String) (confirm : String)
  | exitCmd
  | invalidCmd

def Cmd.isExit : Cmd → Bool
  | .exitCmd => true
  | _ => false

/-- `main` from the source: the command loop.  Every failure inside a
command is handled by that command (caught, reported, sometimes logged)
and the loop continues; only the exit command leaves the loop. -/
def runSession (execQ : ExecOracle) : Session → List Cmd → Session
  | st, [] => st
  | st, c :: rest =>
      match c with
      | Cmd.exitCmd => { st with printed := st.printed ++ ["Exiting."] }
      | Cmd.invalidCmd =>
          runSession execQ
            { st with
                printed := st.printed ++ ["Invalid command. Try again."],
                processed := st.processed + 1 } rest
      | Cmd.loadCmd fileExists src table_name inputs =>
          if fileExists then
            let o := load_csv_to_table st.db st.log src (pyStrip table_name) inputs
            runSession execQ
              { st with
                  db := o.db, log := o.log,
                  processed := st.processed + 1 } rest
          else
            runSession execQ
              { st with
                  printed := st.printed ++ ["File not found."],
                  processed := st.processed + 1 } rest
      | Cmd.sqlCmd queries =>
          let st2 := interactive_sql_shell execQ st queries
          runSession execQ { st2 with processed := st.processed + 1 } rest
      | Cmd.chatCmd user_request confirm =>
          let r := ask_ai_for_sql user_request (get_all_tables_and_schema st.db)
          let st2 := { st with
                        log := st.log ++ r.logEntries,
                        printed := st.printed ++ r.printedLines }
          match r.candidate with
          | none => runSession execQ { st2 with processed := st.processed + 1 } rest
          | some q =>
              if q = "" then
                runSession execQ { st2 with processed := st.processed + 1 } rest
              else
                let st3 := { st2 with
                  printed := st2.printed ++ ["Generated SQL:", q] }
                if pyLower (pyStrip confirm) = "y" then
                  match execQ st3.db q with
                  | Except.ok (db2, _rows) =>
                      runSession execQ
                        { st3 with
                            db := db2, submitted := st3.submitted ++ [q],
                            processed := st.processed + 1 } rest
                  | Except.error e =>
                      runSession execQ
                        { st3 with
                            submitted := st3.submitted ++ [q],
                            printed := st3.printed
                              ++ ["SQL Execution Error: " ++ e],
                            log := st3.log
                              ++ ["[SQL Execution] " ++ e ++ "\nQuery: " ++ q],
                            processed := st.processed + 1 } rest
                else runSession execQ { st3 with processed := st.processed + 1 } rest

/-- `load_openai_key` from the source: the stripped contents of `key.txt`,
or None when the file is absent (the FileNotFoundError branch). -/
def load_openai_key (keyFile : Option String) : Option String :=
  match keyFile with
  | none => none
  | some contents => some (pyStrip contents)

/-- Python truthiness at `if not api_key: exit(1)`: both None and an empty
string are falsy. -/
def keyMissing : Option String → Bool
  | none => true
  | some k => k = ""

/-- Whether module start reached the main loop or terminated at once with
exit code 1. -/
inductive ProgramResult
  | exitedAtStartup
  | ran (final : Session)

def ProgramResult.proceeded : ProgramResult → Bool
  | .exitedAtStartup => false
  | .ran _ => true

/-- The session starts with an empty in-memory store, an empty error log,
and nothing printed, submitted or processed. -/
def initialSession : Session := ⟨[], [], [], [], 0⟩

/-- Module start: the key is loaded at import time, before any command is
read; a missing or empty key terminates the process with exit code 1,
otherwise the main loop runs. -/
def program (keyFile : Option String) (execQ : ExecOracle) (cmds : List Cmd) :
    ProgramResult :=
  if keyMissing (load_openai_key keyFile) then ProgramResult.exitedAtStartup
  else ProgramResult.ran (runSession execQ initialSession cmds)

/-- The claim states the translator submits the prompt at temperature 0
and returns the response text.  The code never reaches the completion
service: the unbound name `openai` raises a NameError inside the try
block on every call, so the translator always logs the failure, reports
it, and returns no candidate. -/
theorem C3_translator_never_submits :
    ∀ user_request table_schema : String,
      ask_ai_for_sql user_request table_schema
        = ⟨none, ["[ask_ai_for_sql] NameError: name openai is not defined"],
            ["OpenAI Error: NameError: name openai is not defined"]⟩ :=
  fun _ _ => rfl

/-- C6: on any completion failure the translator appends one tagged line
to the error log, prints the failure, and returns no candidate; the chat
command then submits nothing to the storage collaborator and leaves the
store untouched. -/
theorem C6_failure_no_submission :
    (∀ e : String, ask_ai_core (Except.error e)
        = ⟨none, ["[ask_ai_for_sql] " ++ e], ["OpenAI Error: " ++ e]⟩) ∧
    (∀ user_request table_schema : String,
      (ask_ai_for_sql user_request table_schema).candidate = none) ∧
    (∀ (execQ : ExecOracle) (st : Session) (user_request confirm : String),
      (runSession execQ st [Cmd.chatCmd user_request confirm]).submitted
          = st.submitted ∧
      (runSession execQ st [Cmd.chatCmd user_request confirm]).db = st.db ∧
      (runSession execQ st [Cmd.chatCmd user_request confirm]).log
          = st.log
            ++ ["[ask_ai_for_sql] NameError: name openai is not defined"]) :=
  ⟨fun _ => rfl, fun _ _ => rfl, fun _ _ _ _ => ⟨rfl, rfl, rfl⟩⟩

/-- The shell never writes to the error log, whatever the storage
collaborator answers. -/
theorem interactive_sql_shell_log (execQ : ExecOracle) :
    ∀ (qs : List String) (st : Session),
      (interactive_sql_shell execQ st qs).log = st.log := by
  intro qs
  induction qs with
  | nil => intro st; rfl
  | cons q rest ih =>
      intro st
      rw [interactive_sql_shell.eq_def]
      dsimp only
      split
      · rfl
      · split
        · exact ih _
        · exact ih _

/-- Lines printed before the shell ran are still present afterwards. -/
theorem interactive_sql_shell_printed_mono (execQ : ExecOracle) :
    ∀ (qs : List String) (st : Session) (x : String), x ∈ st.printed →
      x ∈ (interactive_sql_shell execQ st qs).printed := by
  intro qs
  induction qs with
  | nil => intro st x hx; exact hx
  | cons q rest ih =>
      intro st x hx
      rw [interactive_sql_shell.eq_def]
      dsimp only
      split
      · exact List.mem_append_left _ hx
      · split
        · exact ih _ x hx
        · exact ih _ x (List.mem_append_left _ hx)

/-- Amended C8: a storage error raised in the interactive SQL shell is
reported to the operator, but the shell never appends anything to the
persisted error log. -/
theorem C8_shell_amended :
    (∀ (execQ : ExecOracle) (st : Session) (qs : List String),
      (interactive_sql_shell execQ st qs).log = st.log) ∧
    (∀ (execQ : ExecOracle) (st : Session) (q : String) (qs : List String)
        (e : String),
      pyLower (pyStrip q) ≠ "exit" → pyLower (pyStrip q) ≠ "quit" →
      execQ st.db (pyStrip q) = Except.error e →
      ("SQL Error: " ++ e) ∈ (interactive_sql_shell execQ st (q :: qs)).printed) := by
  refine ⟨fun execQ st qs => interactive_sql_shell_log execQ qs st, ?_⟩
  intro execQ st q qs e h1 h2 hq
  rw [interactive_sql_shell.eq_def]
  dsimp only
  rw [if_neg (by exact fun hc => hc.elim h1 h2), hq]
  exact interactive_sql_shell_printed_mono execQ qs _ _
    (List.mem_append_right _ (by simp))

def failExec : ExecOracle := fun _db _q => Except.error "no such table: users"

/-- The claim states every storage error raised on a query string is both
reported and appended to the error log.  Counterexample: a failing query
in the interactive SQL shell is reported but the error log stays empty. -/
theorem C8_shell_log_counterexample :
    (interactive_sql_shell failExec initialSession ["SELECT 1", "exit"]).log
        = [] ∧
    (interactive_sql_shell failExec initialSession ["SELECT 1", "exit"]).printed
        = ["SQL Error: no such table: users", "Exiting SQL shell..."] :=
  ⟨rfl, rfl⟩

/-- Concrete run of the amended C8 theorem on a one-query shell session
against an always-failing storage collaborator. -/
theorem C8_shell_witness :
    (pyLower (pyStrip "SELECT 1") ≠ "exit" ∧
      failExec initialSession.db (pyStrip "SELECT 1")
        = Except.error "no such table: users") ∧
    ("SQL Error: " ++ "no such table: users")
      ∈ (interactive_sql_shell failExec initialSession ["SELECT 1"]).printed :=
  ⟨⟨by decide, rfl⟩,
    C8_shell_amended.2 failExec initialSession "SELECT 1" [] "no such table: users"
      (by decide) (by decide) rfl⟩

def trivialExec : ExecOracle := fun db _q => Except.ok (db, [])

def dfC7 : Csv := ⟨["a"], [[Cell.intTok 1]]⟩

/-- The claim states a session that only loads files proceeds without the
credential.  Counterexample: with `key.txt` absent the module exits with
code 1 before the first command, even for a load-only session; the very
same session proceeds once a key is present. -/
theorem C7_startup_counterexample :
    (program none trivialExec
        [Cmd.loadCmd true (Except.ok dfC7) "t" []]).proceeded = false ∧
    (program (some "sk-key") trivialExec
        [Cmd.loadCmd true (Except.ok dfC7) "t" []]).proceeded = true :=
  ⟨rfl, rfl⟩

/-- A session whose commands are all handled (no exit command) processes
every one of them: no failure inside load, sql or chat ends the loop. -/
theorem runSession_processed (execQ : ExecOracle) :
    ∀ (cmds : List Cmd) (st : Session),
      cmds.all (fun c => !c.isExit) = true →
      (runSession execQ st cmds).processed = st.processed + cmds.length := by
  intro cmds
  induction cmds with
  | nil => intro st _h; rfl
  | cons c rest ih =>
      intro st h
      have hrest : rest.all (fun c => !c.isExit) = true := by
        rw [List.all_cons] at h
        exact (Bool.and_eq_true_iff.mp h).2
      have hc : c.isExit = false := by
        rw [List.all_cons] at h
        have := (Bool.and_eq_true_iff.mp h).1
        cases hcc : c.isExit
        · rfl
        · rw [hcc] at this; exact absurd this (by decide)
      cases c with
      | exitCmd => exact absurd hc (by simp [Cmd.isExit])
      | invalidCmd =>
          rw [show runSession execQ st (Cmd.invalidCmd :: rest)
            = runSession execQ
                { st with
                  printed := st.printed ++ ["Invalid command. Try again."],
                  processed := st.processed + 1 } rest from rfl,
            ih _ hrest]
          simp [List.length_cons]
          omega
      | loadCmd fileExists src table_name inputs =>
          cases fileExists with
          | true =>
              rw [show runSession execQ
                  st (Cmd.loadCmd true src table_name inputs :: rest)
                = runSession execQ
                    { st with
                      db := (load_csv_to_table st.db st.log src
                        (pyStrip table_name) inputs).db,
                      log := (load_csv_to_table st.db st.log src
                        (pyStrip table_name) inputs).log,
                      processed := st.processed + 1 } rest from rfl,
                ih _ hrest]
              simp [List.length_cons]
              omega
          | false =>
              rw [show runSession execQ
                  st (Cmd.loadCmd false src table_name inputs :: rest)
                = runSession execQ
                    { st with
                      printed := st.printed ++ ["File not found."],
                      processed := st.processed + 1 } rest from rfl,
                ih _ hrest]
              simp [List.length_cons]
              omega
      | sqlCmd queries =>
          rw [show runSession execQ st (Cmd.sqlCmd queries :: rest)
            = runSession execQ
                { interactive_sql_shell execQ st queries with
                  processed := st.processed + 1 } rest from rfl,
            ih _ hrest]
          simp [List.length_cons]
          omega
      | chatCmd user_request confirm =>
          rw [show runSession execQ st (Cmd.chatCmd user_request confirm :: rest)
            = runSession execQ
                { st with
                  log := st.log ++ ["[ask_ai_for_sql] NameError: name openai is not defined"],
                  printed := st.printed ++ ["OpenAI Error: NameError: name openai is not defined"],
                  processed := st.processed + 1 } rest from rfl,
            ih _ hrest]
          simp [List.length_cons]
          omega

/-- Amended C7: a missing (or empty) credential file at startup is fatal
for every session, whatever its commands — load-only and sql-only sessions
included; with a credential present the main loop starts and processes
every command, since no failure inside a command ends the loop. -/
theorem C7_startup_amended :
    (∀ (execQ : ExecOracle) (cmds : List Cmd),
      program none execQ cmds = ProgramResult.exitedAtStartup) ∧
    (∀ (k : String) (execQ : ExecOracle) (cmds : List Cmd),
      pyStrip k ≠ "" → cmds.all (fun c => !c.isExit) = true →
      program (some k) execQ cmds
          = ProgramResult.ran (runSession execQ initialSession cmds) ∧
      (runSession execQ initialSession cmds).processed = cmds.length) := by
  constructor
  · intro execQ cmds
    rfl
  · intro k execQ cmds hk hall
    have hkey : keyMissing (load_openai_key (some k)) = false := by
      simp [keyMissing, load_openai_key, hk]
    constructor
    · unfold program
      rw [hkey]
      rfl
    · have := runSession_processed execQ cmds initialSession hall
      simpa [initialSession] using this

/-- Concrete run of the amended C7 theorem: a one-command session with a
present key starts and processes its command. -/
theorem C7_startup_witness :
    (pyStrip "sk-test" ≠ "" ∧
      [Cmd.invalidCmd].all (fun c => !c.isExit) = true) ∧
    program (some "sk-test") trivialExec [Cmd.invalidCmd]
        = ProgramResult.ran
            (runSession trivialExec initialSession [Cmd.invalidCmd]) ∧
    (runSession trivialExec initialSession [Cmd.invalidCmd]).processed = 1 :=
  ⟨⟨by decide, by decide⟩,
    C7_startup_amended.2 "sk-test" trivialExec [Cmd.invalidCmd]
      (by decide) (by decide)⟩

/-- One completed create-and-append pipeline over base store `base`: the
CREATE TABLE IF NOT EXISTS succeeded (as a no-op, or creating one empty
table under the quote-escaped parsed names), and then the append either
succeeded — every parsed row appended, with pandas creating its own table
when the raw name is absent — or failed, leaving exactly the state the
committed CREATE produced: a just-created table stays behind empty. -/
def PipelineOutcome (base : Store) (tgt : String) (df : Csv) (dbOut : Store) : Prop :=
  ∃ db2, createTableIfNotExists base tgt (inferredSchema df) = Except.ok db2 ∧
    (to_sql_append db2 tgt df = Except.ok dbOut ∨
      (dbOut = db2 ∧ ∃ e, to_sql_append db2 tgt df = Except.error e))

/-- The store shapes one loader invocation can leave behind: untouched; a
completed pipeline over the untouched store; or — only on the Overwrite
path — the parsed target dropped, followed by nothing (the rebuilt CREATE
failed) or by a completed pipeline over the dropped store. -/
def CleanOutcome (db : Store) (src : Except String Csv) (o : LoadOutcome) : Prop :=
  o.db = db ∨
  ∃ df tgt, src = Except.ok df ∧
    (PipelineOutcome db tgt df o.db ∨
      ∃ p, parseQuotedIdent tgt = some p ∧
        (o.db = dropTable db p ∨ PipelineOutcome (dropTable db p) tgt df o.db))

theorem createAndAppend_clean (db : Store) (log : List String) (df : Csv)
    (name : String) :
    CleanOutcome db (Except.ok df)
      (createAndAppend db log df name (inferredSchema df)) := by
  unfold createAndAppend
  split
  · exact Or.inl rfl
  · rename_i db2 hcreate
    split
    · rename_i e happend
      exact Or.inr ⟨df, name, rfl,
        Or.inl ⟨db2, hcreate, Or.inr ⟨rfl, e, happend⟩⟩⟩
    · rename_i db3 happend
      exact Or.inr ⟨df, name, rfl, Or.inl ⟨db2, hcreate, Or.inl happend⟩⟩

theorem overwriteAndLoad_clean (db : Store) (log : List String) (df : Csv)
    (name : String) :
    CleanOutcome db (Except.ok df)
      (overwriteAndLoad db log df name (inferredSchema df)) := by
  unfold overwriteAndLoad dropTableIfExists
  cases hp : parseQuotedIdent name with
  | none => exact Or.inl rfl
  | some p =>
      show CleanOutcome db (Except.ok df)
        (createAndAppend (dropTable db p) log df name (inferredSchema df))
      unfold createAndAppend
      split
      · exact Or.inr ⟨df, name, rfl, Or.inr ⟨p, hp, Or.inl rfl⟩⟩
      · rename_i db2 hcreate
        split
        · rename_i e happend
          exact Or.inr ⟨df, name, rfl,
            Or.inr ⟨p, hp, Or.inr ⟨db2, hcreate, Or.inr ⟨rfl, e, happend⟩⟩⟩⟩
        · rename_i db3 happend
          exact Or.inr ⟨df, name, rfl,
            Or.inr ⟨p, hp, Or.inr ⟨db2, hcreate, Or.inl happend⟩⟩⟩

theorem load_csv_to_table_clean_core (db : Store) (log : List String)
    (src : Except String Csv) (name : String) (inputs : List String)
    (IH : ∀ (name2 : String) (inputs2 : List String),
      inputs2.length < inputs.length →
      CleanOutcome db src (load_csv_to_table db log src name2 inputs2)) :
    CleanOutcome db src (load_csv_to_table db log src name inputs) := by
  rw [load_csv_to_table.eq_def]
  cases src with
  | error e => exact Or.inl rfl
  | ok df =>
      dsimp only
      by_cases hex : table_exists db name = true
      · rw [if_pos hex]
        by_cases hne : get_table_schema db name ≠ inferredSchema df
        · rw [if_pos hne]
          cases inputs with
          | nil => exact Or.inl rfl
          | cons action rest =>
              dsimp only
              by_cases ho : pyLower (pyStrip action) = "o"
              · rw [if_pos ho]
                exact overwriteAndLoad_clean db log df name
              · rw [if_neg ho]
                by_cases hr : pyLower (pyStrip action) = "r"
                · rw [if_pos hr]
                  cases rest with
                  | nil => exact Or.inl rfl
                  | cons newName rest2 =>
                      exact IH (pyStrip newName) rest2
                        (by simp [List.length_cons]; omega)
                · rw [if_neg hr]
                  by_cases hs : pyLower (pyStrip action) = "s"
                  · rw [if_pos hs]
                    exact Or.inl rfl
                  · rw [if_neg hs]
                    exact Or.inl rfl
        · rw [if_neg hne]
          exact createAndAppend_clean db log df name
      · rw [if_neg hex]
        exact createAndAppend_clean db log df name

theorem load_csv_to_table_clean (db : Store) (log : List String)
    (src : Except String Csv) (name : String) (inputs : List String) :
    CleanOutcome db src (load_csv_to_table db log src name inputs) := by
  suffices H : ∀ (n : Nat) (name : String) (inputs : List String),
      inputs.length ≤ n →
      CleanOutcome db src (load_csv_to_table db log src name inputs) by
    exact H inputs.length name inputs (Nat.le_refl _)
  intro n
  induction n with
  | zero =>
      intro name inputs hlen
      have hnil : inputs = [] := by
        cases inputs with
        | nil => rfl
        | cons a r => simp at hlen
      subst hnil
      exact load_csv_to_table_clean_core db log src name []
        (fun _ _ h => absurd h (Nat.not_lt_zero _))
  | succ n ihn =>
      intro name inputs hlen
      exact load_csv_to_table_clean_core db log src name inputs
        (fun name2 inputs2 hlt => ihn name2 inputs2 (by omega))

theorem createTableIfNotExists_ok_shape {base : Store} {tgt : String}
    {schema : List (String × String)} {db2 : Store}
    (h : createTableIfNotExists base tgt schema = Except.ok db2) :
    db2 = base ∨
    ∃ pname pschema, db2 = base ++ [(pname, ⟨pschema, []⟩)] ∧
      findTable base pname = none := by
  unfold createTableIfNotExists at h
  cases hp : parseQuotedIdent tgt with
  | none =>
      rw [hp] at h
      exact Except.noConfusion h
  | some pname =>
      rw [hp] at h
      cases hps : parseSchema schema with
      | none =>
          rw [hps] at h
          exact Except.noConfusion h
      | some pschema =>
          rw [hps] at h
          dsimp only at h
          split at h
          · exact Except.noConfusion h
          · split at h
            · injection h with h2
              exact Or.inl h2.symm
            · rename_i hnotex
              split at h
              · exact Except.noConfusion h
              · injection h with h2
                refine Or.inr ⟨pname, pschema, h2.symm, ?_⟩
                have hf : table_exists base pname = false := by
                  cases hte : table_exists base pname
                  · rfl
                  · exact absurd hte hnotex
                exact findTable_eq_none hf

theorem to_sql_append_ok_shape {db2 : Store} {tgt : String} {df : Csv}
    {out : Store} (h : to_sql_append db2 tgt df = Except.ok out) :
    out = insertRows db2 tgt df.rows ∨
    (out = db2 ++ [(tgt, ⟨pandasCreatedSchema df, df.rows⟩)] ∧
      findTable db2 tgt = none) := by
  unfold to_sql_append at h
  cases hf : findTable db2 tgt with
  | some t =>
      rw [hf] at h
      dsimp only at h
      split at h
      · injection h with h2
        exact Or.inl h2.symm
      · exact Except.noConfusion h
  | none =>
      rw [hf] at h
      dsimp only at h
      injection h with h2
      exact Or.inr ⟨h2.symm, rfl⟩

theorem findTable_append_of_some {xs : Store} (ys : Store) {n : String}
    {t : Table} (h : findTable xs n = some t) :
    findTable (xs ++ ys) n = some t := by
  induction xs with
  | nil => exact Option.noConfusion h
  | cons e rest ih =>
      rw [findTable_cons] at h
      by_cases he : e.1 = n
      · rw [if_pos he] at h
        rw [List.cons_append, findTable_cons, if_pos he]
        exact h
      · rw [if_neg he] at h
        rw [List.cons_append, findTable_cons, if_neg he]
        exact ih h

theorem tableRows_insertRows_cases (db : Store) (n m : String)
    (rs : List (List Cell)) :
    tableRows (insertRows db n rs) m = tableRows db m ∨
    tableRows (insertRows db n rs) m = tableRows db m ++ rs := by
  by_cases hm : m = n
  · subst hm
    cases hf : findTable db m with
    | none =>
        left
        unfold tableRows
        rw [findTable_insertRows_self, hf]
        rfl
    | some t =>
        right
        unfold tableRows
        rw [findTable_insertRows_self, hf]
        rfl
  · left
    unfold tableRows
    rw [findTable_insertRows_ne db hm rs]

theorem tableRows_append_single (db : Store) (p : String) (tb : Table)
    (m : String) :
    tableRows (db ++ [(p, tb)]) m = tableRows db m ∨
    (tableRows (db ++ [(p, tb)]) m = tb.rows ∧ findTable db m = none) := by
  cases hf : findTable db m with
  | some t =>
      left
      unfold tableRows
      rw [findTable_append_of_some _ hf, hf]
  | none =>
      by_cases hp : p = m
      · right
        refine ⟨?_, rfl⟩
        unfold tableRows
        rw [findTable_append_of_none _ hf, findTable_cons, if_pos hp]
      · left
        unfold tableRows
        rw [findTable_append_of_none _ hf, findTable_cons, if_neg hp, hf]
        rfl

theorem tableRows_dropTable_cases (db : Store) (p m : String) :
    tableRows (dropTable db p) m = tableRows db m ∨
    tableRows (dropTable db p) m = [] := by
  by_cases hm : m = p
  · subst hm
    right
    unfold tableRows
    rw [findTable_dropTable_self]
  · left
    unfold tableRows
    rw [findTable_dropTable_ne db hm]

/-- After one load of dataframe `df`, every table holds its previous rows,
its previous rows with every parsed row appended, exactly the parsed rows,
or no rows at all — never a proper part of the new rows. -/
def NoPartialRows (db : Store) (df : Csv) (dbOut : Store) : Prop :=
  ∀ m : String,
    tableRows dbOut m = tableRows db m ∨
    tableRows dbOut m = tableRows db m ++ df.rows ∨
    tableRows dbOut m = df.rows ∨
    tableRows dbOut m = []

theorem noPartialRows_pipeline {base : Store} {tgt : String} {df : Csv}
    {out : Store} (h : PipelineOutcome base tgt df out) :
    NoPartialRows base df out := by
  obtain ⟨db2, hcreate, hrest⟩ := h
  intro m
  have h2 : tableRows db2 m = tableRows base m ∨ tableRows db2 m = [] := by
    rcases createTableIfNotExists_ok_shape hcreate with rfl | ⟨pname, pschema, rfl, _⟩
    · exact Or.inl rfl
    · rcases tableRows_append_single base pname ⟨pschema, []⟩ m with hh | ⟨hh, _⟩
      · exact Or.inl hh
      · exact Or.inr hh
  rcases hrest with hok | ⟨rfl, e, _⟩
  · rcases to_sql_append_ok_shape hok with rfl | ⟨rfl, _⟩
    · rcases tableRows_insertRows_cases db2 tgt m df.rows with hh | hh
      · rw [hh]
        rcases h2 with h2 | h2
        · exact Or.inl h2
        · exact Or.inr (Or.inr (Or.inr h2))
      · rw [hh]
        rcases h2 with h2 | h2
        · rw [h2]
          exact Or.inr (Or.inl rfl)
        · rw [h2]
          exact Or.inr (Or.inr (Or.inl rfl))
    · rcases tableRows_append_single db2 tgt ⟨pandasCreatedSchema df, df.rows⟩ m
          with hh | ⟨hh, _⟩
      · rw [hh]
        rcases h2 with h2 | h2
        · exact Or.inl h2
        · exact Or.inr (Or.inr (Or.inr h2))
      · rw [hh]
        exact Or.inr (Or.inr (Or.inl rfl))
  · rcases h2 with h2 | h2
    · exact Or.inl h2
    · exact Or.inr (Or.inr (Or.inr h2))

theorem load_csv_to_table_no_partial (db : Store) (log : List String)
    (df : Csv) (name : String) (inputs : List String) :
    NoPartialRows db df
      (load_csv_to_table db log (Except.ok df) name inputs).db := by
  rcases load_csv_to_table_clean db log (Except.ok df) name inputs with
    h | ⟨df2, tgt, hsrc, hrest⟩
  · intro m
    rw [h]
    exact Or.inl rfl
  · injection hsrc with hdf
    subst hdf
    rcases hrest with hpipe | ⟨p, _, hdrop | hpipe⟩
    · exact noPartialRows_pipeline hpipe
    · intro m
      rw [hdrop]
      rcases tableRows_dropTable_cases db p m with hh | hh
      · exact Or.inl hh
      · exact Or.inr (Or.inr (Or.inr hh))
    · intro m
      rcases noPartialRows_pipeline hpipe m with hh | hh | hh | hh
      · rw [hh]
        rcases tableRows_dropTable_cases db p m with h2 | h2
        · exact Or.inl h2
        · exact Or.inr (Or.inr (Or.inr h2))
      · rw [hh]
        rcases tableRows_dropTable_cases db p m with h2 | h2
        · rw [h2]
          exact Or.inr (Or.inl rfl)
        · rw [h2]
          exact Or.inr (Or.inr (Or.inl rfl))
      · rw [hh]
        exact Or.inr (Or.inr (Or.inl rfl))
      · rw [hh]
        exact Or.inr (Or.inr (Or.inr rfl))

/-- Amended C2: a loader invocation leaves the store untouched; or, only
after the operator chose Overwrite, with just the (quote-escaped parse of
the) target table dropped; or it runs table creation and the bulk append
to completion over the otherwise untouched (or dropped) store — where a
failed append leaves the just-created table behind empty, with the
quote-collapsed declared schema.  In every case each table afterwards
holds its previous rows, its previous rows plus every parsed row, exactly
the parsed rows, or no rows: never part of the new rows. -/
theorem C2_loader_amended :
    ∀ (db : Store) (log : List String) (src : Except String Csv)
      (name : String) (inputs : List String),
      CleanOutcome db src (load_csv_to_table db log src name inputs) ∧
      ∀ df : Csv, src = Except.ok df →
        NoPartialRows db df (load_csv_to_table db log src name inputs).db := by
  intro db log src name inputs
  refine ⟨load_csv_to_table_clean db log src name inputs, ?_⟩
  intro df hsrc
  subst hsrc
  exact load_csv_to_table_no_partial db log df name inputs

def dfC2w : Csv := ⟨["a"], [[Cell.intTok 4]]⟩

/-- Concrete run of the amended C2 theorem on a one-column source loaded
under a fresh name in an empty store. -/
theorem C2_loader_witness :
    CleanOutcome [] (Except.ok dfC2w)
      (load_csv_to_table [] [] (Except.ok dfC2w) "w" []) ∧
    NoPartialRows [] dfC2w
      (load_csv_to_table [] [] (Except.ok dfC2w) "w" []).db :=
  ⟨(C2_loader_amended [] [] (Except.ok dfC2w) "w" []).1,
    (C2_loader_amended [] [] (Except.ok dfC2w) "w" []).2 dfC2w rfl⟩

def dfQuoted : Csv := ⟨["a\"\"b"], [[Cell.strTok "x"]]⟩

/-- The quote-escaped case that forces the created-but-empty disjunct: a
header containing a doubled quote parses via SQLite escaping (the CREATE
succeeds, making a column literally named `a"b`), the append then fails
because the dataframe column `a""b` does not exist in the table, and a
created, empty table whose declared schema is the collapsed — not the
inferred — one remains in the store. -/
theorem load_quoted_header_leaves_empty_table :
    (load_csv_to_table [] [] (Except.ok dfQuoted) "t" []).result
        = LoadResult.errored ∧
    (load_csv_to_table [] [] (Except.ok dfQuoted) "t" []).db
        = [("t", ⟨[("a\"b", "TEXT")], []⟩)] ∧
    inferredSchema dfQuoted = [("a\"\"b", "TEXT")] :=
  ⟨rfl, rfl, rfl⟩
